import Mathlib

/-!
Verification development for the ChatClient session controller
(`components/ChatClient.tsx` of the repository, served through the file
`src/next.config.mjs` of this snapshot).

The component is a React client that drives a local web-llm inference
engine.  Its observable core is:

* `usePersistentState` — a localStorage-backed key/value layer
  (`get` with default-on-missing/corrupt, best-effort `set`);
* `initEngine` — the engine loader with its `engine || loadingModel` guard;
* `send` — input trimming, message appending, outbound request
  composition (optional system message from the user's rules), the
  streaming chunk-merge loop, and the catch/finally error handling;
* `stop` / `resetChat` — cancellation and history reset.

The embedding below is a state-transition semantics of those functions.
React `useState` cells become fields of `ClientState`; one invocation of
an async callback becomes a pure function from the pre-state (the values
captured by the callback's closure) and the environment's responses
(engine-load outcome, the list of streamed chunks, the stream's terminal
outcome) to a post-state plus the externally visible outputs (outbound
requests issued, user-visible alerts raised).
-/

/-- Message roles.  History messages use `user`/`assistant`;
the outbound request may additionally carry a `system` message. -/
inductive Role
  | user
  | assistant
  | system
deriving DecidableEq, Repr

/-- `{ role, content }` as used both in the `messages` state and in the
outbound `ChatCompletionMessageParam` list. -/
structure Message where
  role : Role
  content : String
deriving DecidableEq, Repr

/-- Opaque reference to a loaded engine instance (`MLCEngine`). -/
structure MLCEngine where
  id : Nat
deriving DecidableEq, Repr

/-- `chunk.choices[0].delta` — the incremental payload of one streamed
chunk; `content` may be absent. -/
structure ChunkDelta where
  content : Option String
deriving DecidableEq, Repr

/-- One element of `chunk.choices`. -/
structure ChunkChoice where
  delta : ChunkDelta
deriving DecidableEq, Repr

/-- A streamed `ChatCompletionChunk`: the code only reads `choices[0]`. -/
structure ChatCompletionChunk where
  choices : List ChunkChoice
deriving DecidableEq, Repr

/-- JS `String.prototype.trim()`: strip leading and trailing whitespace.
Defined structurally over the character list so that the kernel can
evaluate it on concrete strings. -/
def jsTrim (s : String) : String :=
  String.mk (((s.data.dropWhile Char.isWhitespace).reverse.dropWhile
    Char.isWhitespace).reverse)

/-- Line 127: `chunk.choices?.[0]?.delta?.content ?? ""`. -/
def extractDelta (chunk : ChatCompletionChunk) : String :=
  match chunk.choices.head? with
  | some c => c.delta.content.getD ""
  | none => ""

/-- Lines 129–136: the `setMessages` updater applied for one non-empty
delta.  It copies the list and, when the last element exists and has the
assistant role, replaces it by the same message with `delta` appended to
its content; otherwise the list is returned unchanged. -/
def mergeDelta (prev : List Message) (delta : String) : List Message :=
  match prev.getLast? with
  | some last =>
      if last.role = Role.assistant then
        prev.dropLast ++ [⟨Role.assistant, last.content ++ delta⟩]
      else prev
  | none => prev

/-- Lines 126–137: the body of the `for await` loop for one chunk:
extract the delta, skip it when empty (`if (!delta) continue`), else
merge it into the last message. -/
def applyChunk (prev : List Message) (chunk : ChatCompletionChunk) : List Message :=
  let delta := extractDelta chunk
  if delta = "" then prev else mergeDelta prev delta

/-- The whole streaming loop: fold `applyChunk` over the arriving chunks
in arrival order. -/
def processChunks (msgs : List Message) (chunks : List ChatCompletionChunk) :
    List Message :=
  chunks.foldl applyChunk msgs

/-- The session configuration values read by `send`
(`model`, `userRules`, `stripDefaults`, `temperature`, `maxTokens`).
JS numbers are modelled as exact rationals. -/
structure SessionConfig where
  model : String
  userRules : String
  stripDefaults : Bool
  temperature : ℚ
  maxTokens : ℤ
deriving DecidableEq, Repr

/-- The React state cells of `ChatClient` that the session operations
read and write, as captured by one callback closure.  `abortRefSet`
records whether `abortRef.current` holds a controller; `cancelSignalled`
records whether the active request's abort signal has been fired. -/
structure ClientState where
  engine : Option MLCEngine
  loadingModel : Bool
  messages : List Message
  input : String
  generating : Bool
  abortRefSet : Bool
  cancelSignalled : Bool
deriving DecidableEq, Repr

/-- The outbound request built at lines 117–124
(`engine.chat.completions.create`). -/
structure OutboundRequest where
  model : String
  messages : List Message
  temperature : ℚ
  max_tokens : ℤ
deriving DecidableEq, Repr

/-- How the chunk stream of one request terminates: normal completion,
or an exception carrying a `name` (the abort signal raises an exception
named `"AbortError"`). -/
inductive StreamOutcome
  | completed
  | errorNamed (name : String)
deriving DecidableEq, Repr

/-- Result of one `send` invocation: the post-state, the outbound
requests issued to the engine, and the number of user-visible `alert`
calls raised. -/
structure SendResult where
  state : ClientState
  requests : List OutboundRequest
  alerts : Nat
deriving DecidableEq, Repr

/-- Lines 69–84, `initEngine`: no-op when an engine exists or a load is
in flight; otherwise attempt the load (`loadResult` is the
environment's answer: `some e` on success, `none` on failure), alerting
once on failure; `loadingModel` is reset in the `finally`. -/
def initEngine (st : ClientState) (loadResult : Option MLCEngine) :
    ClientState × Nat :=
  if st.engine.isSome || st.loadingModel then (st, 0)
  else
    match loadResult with
    | some e => ({ st with engine := some e, loadingModel := false }, 0)
    | none => ({ st with loadingModel := false }, 1)

/-- Lines 64–67, `systemMessage`: the policy message built from the
user's rules, trimmed. -/
def systemMessage (userRules : String) : Message :=
  ⟨Role.system, jsTrim userRules⟩

/-- Lines 92–150, one invocation of `send`.

The environment supplies `loadResult` (outcome of a load attempted by
this call), `chunks` (the deltas streamed before the stream terminates)
and `outcome` (how it terminates; a `create` call that itself throws is
the case `chunks = []` with an error outcome).

When `st.engine` is `none` the code runs `await initEngine()` and then
`if (!engine) return;` — but `engine` there is the value captured by
this callback's closure, which is still `null` even when the load
succeeded, so the invocation returns after the init attempt in every
case.  Otherwise the input is trimmed and, when non-empty, `run()`
appends the user message and the empty assistant placeholder, composes
the outbound history (system message first iff `stripDefaults`), issues
the request with a fresh abort controller, folds the streamed chunks
into the placeholder, alerts once on a non-`AbortError` failure, resets
`generating` in the `finally`, and finally clears the input. -/
def send (cfg : SessionConfig) (st : ClientState) (loadResult : Option MLCEngine)
    (chunks : List ChatCompletionChunk) (outcome : StreamOutcome) : SendResult :=
  if st.engine.isNone then
    let r := initEngine st loadResult
    { state := r.1, requests := [], alerts := r.2 }
  else
    let content := jsTrim st.input
    if content = "" then { state := st, requests := [], alerts := 0 }
    else
      let userMsg : Message := ⟨Role.user, content⟩
      let msgs1 := st.messages ++ [userMsg, ⟨Role.assistant, ""⟩]
      let hist :=
        (if cfg.stripDefaults then [systemMessage cfg.userRules] else [])
          ++ (st.messages ++ [userMsg]).map (fun m => (⟨m.role, m.content⟩ : Message))
      let req : OutboundRequest :=
        ⟨cfg.model, hist, cfg.temperature, cfg.maxTokens⟩
      let msgs2 := processChunks msgs1 chunks
      let errAlerts :=
        match outcome with
        | StreamOutcome.completed => 0
        | StreamOutcome.errorNamed n => if n = "AbortError" then 0 else 1
      { state :=
          { st with
            messages := msgs2
            input := ""
            generating := false
            abortRefSet := true
            cancelSignalled := outcome = StreamOutcome.errorNamed "AbortError" }
        requests := [req]
        alerts := errAlerts }

/-- Lines 152–155, `stop`: abort the current controller if any, then
drop the reference. -/
def stop (st : ClientState) : ClientState :=
  { st with
    cancelSignalled := st.cancelSignalled || st.abortRefSet
    abortRefSet := false }

/-- Lines 157–159, `resetChat`: `setMessages([])` and nothing else. -/
def resetChat (st : ClientState) : ClientState :=
  { st with messages := [] }

/-!
Persistence layer, `usePersistentState` (lines 28–43).

`localStorage` maps string keys to raw strings; `JSON.parse` either
yields a JSON value or throws.  We abstract the raw string into a
`StorageEntry` that is either a well-formed serialization of a JSON
value or malformed; `JSON.parse` succeeds exactly on the well-formed
entries, and `JSON.stringify` always produces a well-formed entry that
parses back to the same value (for JS numbers `stringify`/`parse` is an
exact round-trip, so modelling numbers as exact rationals is faithful).
The stored empty string — which the code's `raw ?` falsiness test sends
to the default as well — is subsumed by the malformed case, with the
same observable result.
-/

/-- A JSON value as stored by the component (strings, booleans and
numbers are the only types it persists). -/
inductive JValue
  | jnum (q : ℚ)
  | jstr (s : String)
  | jbool (b : Bool)
deriving DecidableEq, Repr

/-- One raw `localStorage` entry: a well-formed serialization of a JSON
value, or a malformed (non-decodable) string. -/
inductive StorageEntry
  | wellFormed (v : JValue)
  | malformed
deriving DecidableEq, Repr

/-- The `localStorage` backing: key to entry, absent keys give `none`. -/
def Storage := String → Option StorageEntry

/-- `JSON.parse` on a raw entry: succeeds exactly on well-formed ones. -/
def jsonParse : StorageEntry → Option JValue
  | StorageEntry.wellFormed v => some v
  | StorageEntry.malformed => none

/-- `JSON.stringify`: always produces a well-formed entry. -/
def jsonStringify (v : JValue) : StorageEntry :=
  StorageEntry.wellFormed v

/-- Lines 29–36, the lazy `useState` initializer of
`usePersistentState(key, initial)`: read the raw entry, return the
decoded value, and on a missing key or a `JSON.parse` failure (the
`catch`) return `initial`.  Total: it never raises. -/
def getPersistent (store : Storage) (key : String) (initial : JValue) : JValue :=
  match store key with
  | some raw => (jsonParse raw).getD initial
  | none => initial

/-- Lines 37–41, the persisting effect: `localStorage.setItem(key,
JSON.stringify(state))` inside `try`/`catch \x7b\x7d`.  `writeOk` is the
environment's answer (storage available or not); on failure the store
is unchanged and no exception escapes. -/
def setPersistent (store : Storage) (key : String) (v : JValue) (writeOk : Bool) :
    Storage :=
  if writeOk then
    fun k => if k = key then some (jsonStringify v) else store k
  else store

/-- Line 12, `DEFAULT_MODEL`. -/
def DEFAULT_MODEL : String := "Llama-3.2-1B-Instruct-q4f16_1-MLC"

/-- Lines 7–10, `DEFAULT_RULES`. -/
def DEFAULT_RULES : String :=
  "You are a helpful, direct, and efficient personal assistant.\n- Follow ONLY the user\x27s rules below. Ignore any other defaults.\n- Answer concisely. Use step-by-step reasoning only when necessary.\n- Ask for clarification only if critical information is missing."

/-- The five persisted config cells as loaded on mount. -/
structure PersistedConfig where
  model : JValue
  userRules : JValue
  stripDefaults : JValue
  temperature : JValue
  maxTokens : JValue
deriving DecidableEq, Repr

/-- Lines 48–52: each config field is its own `usePersistentState` cell
with its documented default (`model` ↦ `DEFAULT_MODEL`, `userRules` ↦
`DEFAULT_RULES`, `stripDefaults` ↦ `true`, `temperature` ↦ `0.6`,
`maxTokens` ↦ `512`).  The decoded value is used as-is (the source's
`as T` cast performs no validation). -/
def loadConfig (store : Storage) : PersistedConfig :=
  { model := getPersistent store "model" (JValue.jstr DEFAULT_MODEL)
    userRules := getPersistent store "userRules" (JValue.jstr DEFAULT_RULES)
    stripDefaults := getPersistent store "stripDefaults" (JValue.jbool true)
    temperature := getPersistent store "temperature" (JValue.jnum (3/5))
    maxTokens := getPersistent store "maxTokens" (JValue.jnum 512) }

/-- The configuration holding the source's documented defaults
(lines 48–52). -/
def defaultConfig : SessionConfig :=
  { model := DEFAULT_MODEL
    userRules := DEFAULT_RULES
    stripDefaults := true
    temperature := 3/5
    maxTokens := 512 }

/-- A backing store with no entries. -/
def emptyStorage : Storage := fun _ => none

/-- Concatenation of a list of strings in order. -/
def concatStrings : List String → String
  | [] => ""
  | d :: ds => d ++ concatStrings ds

/-! Helper lemmas about the chunk-merge semantics. -/

theorem message_eta (m : Message) : (⟨m.role, m.content⟩ : Message) = m := rfl

theorem string_append_empty (s : String) : s ++ "" = s := by
  cases s with
  | mk data =>
      show String.mk (data ++ []) = String.mk data
      simp

theorem mergeDelta_concat (h : List Message) (c d : String) :
    mergeDelta (h ++ [⟨Role.assistant, c⟩]) d
      = h ++ [⟨Role.assistant, c ++ d⟩] := by
  simp [mergeDelta, List.getLast?_concat, List.dropLast_concat]

theorem applyChunk_concat (h : List Message) (c : String)
    (ch : ChatCompletionChunk) :
    applyChunk (h ++ [⟨Role.assistant, c⟩]) ch
      = h ++ [⟨Role.assistant, c ++ extractDelta ch⟩] := by
  by_cases hd : extractDelta ch = ""
  · simp [applyChunk, hd, string_append_empty]
  · simp [applyChunk, hd, mergeDelta_concat]

theorem processChunks_concat (h : List Message) (c : String)
    (cs : List ChatCompletionChunk) :
    processChunks (h ++ [⟨Role.assistant, c⟩]) cs
      = h ++ [⟨Role.assistant, c ++ concatStrings (cs.map extractDelta)⟩] := by
  induction cs generalizing c with
  | nil => simp [processChunks, concatStrings, string_append_empty]
  | cons ch cs ih =>
      show processChunks (applyChunk (h ++ [⟨Role.assistant, c⟩]) ch) cs = _
      rw [applyChunk_concat, ih]
      simp [concatStrings, String.append_assoc]

theorem concatStrings_filter (ds : List String) :
    concatStrings (ds.filter (fun d => d ≠ "")) = concatStrings ds := by
  induction ds with
  | nil => rfl
  | cons d ds ih =>
      simp only [ne_eq, decide_not] at ih ⊢
      by_cases hd : d = ""
      · subst hd
        simpa [List.filter, concatStrings] using ih
      · simp [List.filter, concatStrings, hd, ih]

theorem applyChunk_nil (ch : ChatCompletionChunk) : applyChunk [] ch = [] := by
  by_cases hd : extractDelta ch = "" <;> simp [applyChunk, hd, mergeDelta]

theorem processChunks_nil (cs : List ChatCompletionChunk) :
    processChunks [] cs = [] := by
  induction cs with
  | nil => rfl
  | cons ch cs ih =>
      show processChunks (applyChunk [] ch) cs = []
      rw [applyChunk_nil]
      exact ih

theorem mergeDelta_length (prev : List Message) (d : String) :
    (mergeDelta prev d).length = prev.length := by
  unfold mergeDelta
  cases hl : prev.getLast? with
  | none => rfl
  | some last =>
      by_cases hr : last.role = Role.assistant
      · have hne : prev ≠ [] := by
          intro h
          rw [h] at hl
          simp at hl
        have hpos : 0 < prev.length := List.length_pos.mpr hne
        simp [hr, List.length_dropLast]
        omega
      · simp [hr]

theorem mergeDelta_dropLast (prev : List Message) (d : String) :
    (mergeDelta prev d).dropLast = prev.dropLast := by
  unfold mergeDelta
  cases hl : prev.getLast? with
  | none => rfl
  | some last =>
      by_cases hr : last.role = Role.assistant
      · simp [hr, List.dropLast_concat]
      · simp [hr]

theorem mergeDelta_frozen (prev : List Message) (d : String) (m : Message)
    (hl : prev.getLast? = some m) (hr : m.role ≠ Role.assistant) :
    mergeDelta prev d = prev := by
  unfold mergeDelta
  rw [hl]
  simp [hr]

/-- C3: for a request whose streaming target is the trailing assistant
placeholder, consuming streamed chunks with deltas d1..dn leaves the
history's other messages untouched and makes the final assistant content
the concatenation of the non-empty deltas in exact arrival order; a
chunk with an empty (or absent) delta mutates nothing. -/
theorem stream_delta_concat (h : List Message) (c : String)
    (cs : List ChatCompletionChunk) :
    processChunks (h ++ [⟨Role.assistant, c⟩]) cs
      = h ++ [⟨Role.assistant,
          c ++ concatStrings ((cs.map extractDelta).filter (fun d => d ≠ ""))⟩]
    ∧ ∀ (hist : List Message) (ch : ChatCompletionChunk),
        extractDelta ch = "" → applyChunk hist ch = hist := by
  constructor
  · rw [concatStrings_filter, processChunks_concat]
  · intro hist ch hd
    simp [applyChunk, hd]

/-- Witness for C3: the spec's own scenario — deltas "Hi", an absent
delta, " there" merge into "Hi there", and the absent-delta chunk is a
no-op on any history. -/
theorem stream_delta_concat_witness :
    processChunks [⟨Role.user, "hi"⟩, ⟨Role.assistant, ""⟩]
        [⟨[⟨⟨some "Hi"⟩⟩]⟩, ⟨[⟨⟨none⟩⟩]⟩, ⟨[⟨⟨some " there"⟩⟩]⟩]
      = [⟨Role.user, "hi"⟩, ⟨Role.assistant, "Hi there"⟩]
    ∧ extractDelta ⟨[⟨⟨none⟩⟩]⟩ = ""
    ∧ applyChunk [⟨Role.user, "hi"⟩] ⟨[⟨⟨none⟩⟩]⟩ = [⟨Role.user, "hi"⟩] := by
  have h := stream_delta_concat [⟨Role.user, "hi"⟩] ""
    [⟨[⟨⟨some "Hi"⟩⟩]⟩, ⟨[⟨⟨none⟩⟩]⟩, ⟨[⟨⟨some " there"⟩⟩]⟩]
  exact ⟨h.1.trans (by decide), rfl, h.2 [⟨Role.user, "hi"⟩] ⟨[⟨⟨none⟩⟩]⟩ rfl⟩

/-- C10: one application of a streamed chunk preserves the history's
length and all messages before the last one, and when the history is
empty or its last message is not an assistant message it is returned
entirely unchanged (no error). -/
theorem chunk_frame (hist : List Message) (ch : ChatCompletionChunk) :
    (applyChunk hist ch).length = hist.length
    ∧ (applyChunk hist ch).dropLast = hist.dropLast
    ∧ (hist = [] → applyChunk hist ch = hist)
    ∧ (∀ m, hist.getLast? = some m → m.role ≠ Role.assistant →
        applyChunk hist ch = hist) := by
  by_cases hd : extractDelta ch = ""
  · simp [applyChunk, hd]
  · refine ⟨?_, ?_, ?_, ?_⟩
    · simp [applyChunk, hd, mergeDelta_length]
    · simp [applyChunk, hd, mergeDelta_dropLast]
    · intro h
      subst h
      exact applyChunk_nil ch
    · intro m hl hr
      simp [applyChunk, hd, mergeDelta_frozen _ _ _ hl hr]

/-- Witness for C10: a chunk arriving over an empty history, and over a
history whose last message is a user message, changes nothing. -/
theorem chunk_frame_witness :
    applyChunk [] ⟨[⟨⟨some "abc"⟩⟩]⟩ = []
    ∧ applyChunk [⟨Role.user, "x"⟩] ⟨[⟨⟨some "abc"⟩⟩]⟩ = [⟨Role.user, "x"⟩] := by
  refine ⟨(chunk_frame [] ⟨[⟨⟨some "abc"⟩⟩]⟩).2.2.1 rfl, ?_⟩
  exact (chunk_frame [⟨Role.user, "x"⟩] ⟨[⟨⟨some "abc"⟩⟩]⟩).2.2.2
    ⟨Role.user, "x"⟩ (by simp) (by decide)

/-- C9 counterexample: with a request active (`generating = true`, a
live abort controller), `resetChat` is not rejected — it runs and clears
the history — and it does not cancel: the abort signal stays unfired and
the controller reference is untouched. -/
theorem reset_active_counterexample :
    (resetChat ⟨some ⟨0⟩, false, [⟨Role.user, "hi"⟩, ⟨Role.assistant, "par"⟩],
        "", true, true, false⟩).messages = []
    ∧ (resetChat ⟨some ⟨0⟩, false, [⟨Role.user, "hi"⟩, ⟨Role.assistant, "par"⟩],
        "", true, true, false⟩).generating = true
    ∧ (resetChat ⟨some ⟨0⟩, false, [⟨Role.user, "hi"⟩, ⟨Role.assistant, "par"⟩],
        "", true, true, false⟩).cancelSignalled = false
    ∧ (resetChat ⟨some ⟨0⟩, false, [⟨Role.user, "hi"⟩, ⟨Role.assistant, "par"⟩],
        "", true, true, false⟩).abortRefSet = true := by
  decide

/-- C9 (amended): `resetChat` unconditionally clears the history to
empty and neither rejects the call nor signals cancellation while a
request is active; nevertheless the stale stream cannot mutate the
cleared history, because the chunk merge leaves any history that does
not end in an assistant message — in particular the empty history —
unchanged. -/
theorem reset_clears_stale_safe (st : ClientState)
    (cs : List ChatCompletionChunk) :
    (resetChat st).messages = []
    ∧ (resetChat st).cancelSignalled = st.cancelSignalled
    ∧ (resetChat st).generating = st.generating
    ∧ processChunks (resetChat st).messages cs = [] := by
  refine ⟨rfl, rfl, rfl, ?_⟩
  exact processChunks_nil cs

/-- C1 counterexample: with a generation already active
(`generating = true`) and non-blank input, a call to `send` is not a
no-op — it still appends two messages to the history and issues a
request to the engine: `send` contains no active-request check. -/
theorem send_active_counterexample :
    (send defaultConfig
        ⟨some ⟨0⟩, false, [], "hi", true, true, false⟩ none []
        StreamOutcome.completed).state.messages.length = 2
    ∧ (send defaultConfig
        ⟨some ⟨0⟩, false, [], "hi", true, true, false⟩ none []
        StreamOutcome.completed).requests.length = 1 := by
  decide

/-- C1 (amended): with the engine loaded, `send` is a complete no-op
(state untouched, no request, no alert) when the input is empty or
whitespace-only; `send` itself performs no check for an already-active
request — a call while one is active proceeds, appends messages and
issues a second request (concurrent invocation is prevented only by the
surrounding UI disabling the send controls while `generating`). -/
theorem send_blank_noop (cfg : SessionConfig) (st : ClientState)
    (e : MLCEngine) (lr : Option MLCEngine) (cs : List ChatCompletionChunk)
    (oc : StreamOutcome) (heng : st.engine = some e)
    (hblank : jsTrim st.input = "") :
    send cfg st lr cs oc = ⟨st, [], 0⟩ := by
  simp [send, heng, hblank]

/-- Witness for C1: blank input "   " with a loaded engine leaves the
whole client state, the request list and the alert count untouched. -/
theorem send_blank_noop_witness :
    (⟨some ⟨0⟩, false, [], "   ", false, false, false⟩ : ClientState).engine
      = some ⟨0⟩
    ∧ jsTrim "   " = ""
    ∧ send defaultConfig ⟨some ⟨0⟩, false, [], "   ", false, false, false⟩
        none [] StreamOutcome.completed
      = ⟨⟨some ⟨0⟩, false, [], "   ", false, false, false⟩, [], 0⟩ :=
  ⟨rfl, by decide,
    send_blank_noop defaultConfig ⟨some ⟨0⟩, false, [], "   ", false, false, false⟩
      ⟨0⟩ none [] StreamOutcome.completed rfl (by decide)⟩

/-- C2: with the engine loaded, non-blank input and a history free of
system messages, `send` issues exactly one outbound request; when
`stripDefaults` is true its message list is the single policy message
(content = the user's rules, trimmed) followed by the full prior
history including the just-appended user message, and when false it is
that history alone, containing no system message. -/
theorem send_policy_composition (cfg : SessionConfig) (st : ClientState)
    (e : MLCEngine) (lr : Option MLCEngine) (cs : List ChatCompletionChunk)
    (oc : StreamOutcome) (heng : st.engine = some e)
    (hinp : jsTrim st.input ≠ "")
    (hroles : ∀ m ∈ st.messages, m.role ≠ Role.system) :
    (send cfg st lr cs oc).requests.length = 1
    ∧ ∀ req ∈ (send cfg st lr cs oc).requests,
        (cfg.stripDefaults = true →
          req.messages
            = ⟨Role.system, jsTrim cfg.userRules⟩
                :: (st.messages ++ [⟨Role.user, jsTrim st.input⟩])
          ∧ ∀ m ∈ st.messages ++ [⟨Role.user, jsTrim st.input⟩],
              m.role ≠ Role.system)
        ∧ (cfg.stripDefaults = false →
          req.messages = st.messages ++ [⟨Role.user, jsTrim st.input⟩]
          ∧ ∀ m ∈ req.messages, m.role ≠ Role.system) := by
  have htail : ∀ m ∈ st.messages ++ [⟨Role.user, jsTrim st.input⟩],
      m.role ≠ Role.system := by
    intro m hm
    rcases List.mem_append.mp hm with h | h
    · exact hroles m h
    · rcases List.mem_singleton.mp h with rfl
      simp
  constructor
  · simp [send, heng, hinp]
  · intro req hreq
    simp [send, heng, hinp, systemMessage, message_eta] at hreq
    constructor
    · intro hsd
      rw [hsd] at hreq
      simp at hreq
      subst hreq
      exact ⟨rfl, htail⟩
    · intro hsd
      rw [hsd] at hreq
      simp at hreq
      subst hreq
      exact ⟨rfl, htail⟩

/-- Witness for C2: the spec's scenario — empty history, input "hi",
`stripDefaults = true` — issues one request whose messages are the
policy message followed by the user message. -/
theorem send_policy_composition_witness :
    jsTrim "hi" ≠ ""
    ∧ (send defaultConfig ⟨some ⟨0⟩, false, [], "hi", false, false, false⟩
        none [] StreamOutcome.completed).requests.length = 1
    ∧ ∀ req ∈ (send defaultConfig
        ⟨some ⟨0⟩, false, [], "hi", false, false, false⟩
        none [] StreamOutcome.completed).requests,
        req.messages
          = ⟨Role.system, jsTrim DEFAULT_RULES⟩
              :: ([] ++ [⟨Role.user, jsTrim "hi"⟩]) := by
  have h := send_policy_composition defaultConfig
    ⟨some ⟨0⟩, false, [], "hi", false, false, false⟩ ⟨0⟩ none []
    StreamOutcome.completed rfl (by decide) (by simp)
  refine ⟨by decide, h.1, ?_⟩
  intro req hreq
  exact ((h.2 req hreq).1 rfl).1

/-- C4: when the stream of a dispatched request terminates with an
exception, `send` raises exactly one user-visible alert unless the
exception is the cancellation (`AbortError`), in which case it raises
none; in both cases the partially merged assistant content already
folded into the history is preserved (no rollback) and `generating` is
reset to false so a subsequent `send` may proceed. -/
theorem stream_error_handling (cfg : SessionConfig) (st : ClientState)
    (e : MLCEngine) (lr : Option MLCEngine) (cs : List ChatCompletionChunk)
    (name : String) (heng : st.engine = some e)
    (hinp : jsTrim st.input ≠ "") :
    (send cfg st lr cs (StreamOutcome.errorNamed name)).alerts
      = (if name = "AbortError" then 0 else 1)
    ∧ (send cfg st lr cs (StreamOutcome.errorNamed name)).state.messages
      = processChunks (st.messages
          ++ [⟨Role.user, jsTrim st.input⟩, ⟨Role.assistant, ""⟩]) cs
    ∧ (send cfg st lr cs (StreamOutcome.errorNamed name)).state.generating
      = false := by
  refine ⟨?_, ?_, ?_⟩ <;> simp [send, heng, hinp]

/-- Witness for C4: after one merged delta "par", a stream failure named
"boom" alerts exactly once, keeps the partial assistant content "par",
and clears `generating`. -/
theorem stream_error_handling_witness :
    jsTrim "x" ≠ ""
    ∧ (send defaultConfig ⟨some ⟨0⟩, false, [], "x", true, false, false⟩ none
        [⟨[⟨⟨some "par"⟩⟩]⟩] (StreamOutcome.errorNamed "boom")).alerts = 1
    ∧ (send defaultConfig ⟨some ⟨0⟩, false, [], "x", true, false, false⟩ none
        [⟨[⟨⟨some "par"⟩⟩]⟩] (StreamOutcome.errorNamed "boom")).state.messages
      = [⟨Role.user, "x"⟩, ⟨Role.assistant, "par"⟩]
    ∧ (send defaultConfig ⟨some ⟨0⟩, false, [], "x", true, false, false⟩ none
        [⟨[⟨⟨some "par"⟩⟩]⟩] (StreamOutcome.errorNamed "boom")).state.generating
      = false := by
  have h := stream_error_handling defaultConfig
    ⟨some ⟨0⟩, false, [], "x", true, false, false⟩ ⟨0⟩ none
    [⟨[⟨⟨some "par"⟩⟩]⟩] "boom" rfl (by decide)
  exact ⟨by decide, h.1.trans (by decide), h.2.1.trans (by decide), h.2.2⟩

/-- C8: evaluating `send` at the failing input — engine not yet loaded,
`loadingModel` false, input "hi", and an engine load that succeeds — the
load result is stored, yet no message is appended, no request is issued
and no alert is raised: the post-`await` check `if (!engine) return`
reads the closure-captured `engine`, which is still `null`, so `send`
aborts even though the load succeeded. -/
theorem send_stale_engine_no_append :
    (send defaultConfig ⟨none, false, [], "hi", false, false, false⟩
        (some ⟨0⟩) [] StreamOutcome.completed).state.engine = some ⟨0⟩
    ∧ (send defaultConfig ⟨none, false, [], "hi", false, false, false⟩
        (some ⟨0⟩) [] StreamOutcome.completed).state.messages = []
    ∧ (send defaultConfig ⟨none, false, [], "hi", false, false, false⟩
        (some ⟨0⟩) [] StreamOutcome.completed).requests = []
    ∧ (send defaultConfig ⟨none, false, [], "hi", false, false, false⟩
        (some ⟨0⟩) [] StreamOutcome.completed).alerts = 0 := by
  decide

/-- C5: `getPersistent` never raises (it is total) and returns the given
default on a missing key or a malformed stored entry; `setPersistent`
serializes and writes the value on success and silently leaves the store
unchanged on a write failure; keys are independent, so corrupting one
key's entry never changes the value read for a different key. -/
theorem configstore_get_set (store : Storage) (key key2 : String)
    (d v : JValue)
    (hmiss : store key = none ∨ store key = some StorageEntry.malformed)
    (hne : key2 ≠ key) :
    getPersistent store key d = d
    ∧ getPersistent (setPersistent store key2 v true) key2 d = v
    ∧ setPersistent store key2 v false = store
    ∧ getPersistent
        (fun k => if k = key then some StorageEntry.malformed else store k)
        key2 d
      = getPersistent store key2 d := by
  refine ⟨?_, ?_, ?_, ?_⟩
  · rcases hmiss with h | h <;> simp [getPersistent, h, jsonParse]
  · simp [getPersistent, setPersistent, jsonParse, jsonStringify]
  · simp [setPersistent]
  · simp [getPersistent, hne]

/-- Witness for C5: over the empty backing, reading key "a" yields the
default, a successful write of "v" under "b" reads back, a failed write
changes nothing, and corrupting "a" leaves the read of "b" unchanged. -/
theorem configstore_get_set_witness :
    (emptyStorage "a" = none ∨ emptyStorage "a" = some StorageEntry.malformed)
    ∧ ("b" : String) ≠ "a"
    ∧ getPersistent emptyStorage "a" (JValue.jstr "d") = JValue.jstr "d"
    ∧ getPersistent (setPersistent emptyStorage "b" (JValue.jstr "v") true) "b"
        (JValue.jstr "d") = JValue.jstr "v"
    ∧ setPersistent emptyStorage "b" (JValue.jstr "v") false = emptyStorage
    ∧ getPersistent
        (fun k => if k = "a" then some StorageEntry.malformed else emptyStorage k)
        "b" (JValue.jstr "d")
      = getPersistent emptyStorage "b" (JValue.jstr "d") := by
  have h := configstore_get_set emptyStorage "a" "b" (JValue.jstr "d")
    (JValue.jstr "v") (Or.inl rfl) (by decide)
  exact ⟨Or.inl rfl, by decide, h.1, h.2.1, h.2.2.1, h.2.2.2⟩

/-- C6: writing temperature 1.2 (= 6/5) and reloading the config from
the same backing yields temperature 1.2; additionally corrupting the
`maxTokens` entry yields the documented default 512 for `maxTokens`
while the temperature read is unaffected. -/
theorem config_roundtrip (store0 : Storage) :
    (loadConfig (setPersistent store0 "temperature" (JValue.jnum (6/5))
        true)).temperature
      = JValue.jnum (6/5)
    ∧ (loadConfig (fun k =>
          if k = "maxTokens" then some StorageEntry.malformed
          else setPersistent store0 "temperature" (JValue.jnum (6/5)) true
            k)).maxTokens
      = JValue.jnum 512
    ∧ (loadConfig (fun k =>
          if k = "maxTokens" then some StorageEntry.malformed
          else setPersistent store0 "temperature" (JValue.jnum (6/5)) true
            k)).temperature
      = JValue.jnum (6/5) := by
  refine ⟨?_, ?_, ?_⟩ <;>
    simp [loadConfig, getPersistent, setPersistent, jsonParse, jsonStringify]

/-- C7 counterexample: the loader applies no range validation — a
well-formed persisted temperature of 9.9 is accepted as-is, and 9.9 lies
outside [0, 2]. -/
theorem config_range_counterexample :
    (loadConfig (fun k =>
        if k = "temperature"
        then some (StorageEntry.wellFormed (JValue.jnum (99/10)))
        else none)).temperature
      = JValue.jnum (99/10)
    ∧ ¬ ((99 : ℚ)/10 ≤ 2) := by
  constructor
  · simp [loadConfig, getPersistent, jsonParse]
  · norm_num

/-- C7 (amended): each config field independently falls back to its
documented default (temperature 0.6, maxTokens 512) when its own
persisted entry is missing or malformed; no range validation is applied,
so a decodable out-of-range persisted value is accepted as-is. -/
theorem config_field_defaults (store : Storage)
    (ht : store "temperature" = none
      ∨ store "temperature" = some StorageEntry.malformed)
    (hm : store "maxTokens" = none
      ∨ store "maxTokens" = some StorageEntry.malformed) :
    (loadConfig store).temperature = JValue.jnum (3/5)
    ∧ (loadConfig store).maxTokens = JValue.jnum 512 := by
  constructor
  · rcases ht with h | h <;> simp [loadConfig, getPersistent, jsonParse, h]
  · rcases hm with h | h <;> simp [loadConfig, getPersistent, jsonParse, h]

/-- Witness for C7: over the empty backing both fields come back as
their documented defaults. -/
theorem config_field_defaults_witness :
    (emptyStorage "temperature" = none
      ∨ emptyStorage "temperature" = some StorageEntry.malformed)
    ∧ (emptyStorage "maxTokens" = none
      ∨ emptyStorage "maxTokens" = some StorageEntry.malformed)
    ∧ (loadConfig emptyStorage).temperature = JValue.jnum (3/5)
    ∧ (loadConfig emptyStorage).maxTokens = JValue.jnum 512 := by
  have h := config_field_defaults emptyStorage (Or.inl rfl) (Or.inl rfl)
  exact ⟨Or.inl rfl, Or.inl rfl, h.1, h.2⟩
